import Mathlib

/-!
# Shallow embedding of the AlphaInsider backend (src/main.py)

This file embeds the data model and the operations of the stock-scanner
service in `src/main.py`: the per-symbol analyzer `analyze_stock`, the
legislative lookup `get_legislative_intel`, the background refresh cycle
`update_market_scanner` (its cache-publishing block), and the two read
endpoints `get_scanner_data` (`/api/scanner`) and `get_signals`
(`/api/signals`).

Modelling conventions:
* Python floats carrying prices are embedded as `ℚ` (the claims only use
  order comparisons, on which non-NaN floats agree with rationals);
  volumes as `ℤ`; scores as `ℤ`.
* Effects of the external market-data provider (`yfinance`) are inputs:
  an `AnalyzeEnv` records the outcome of each fallible external call
  (`none` / `.error` = the call raised), so every exception path of the
  Python code is an explicit branch of a total function.
* Python's `list.sort` is stable; it is embedded as `List.mergeSort`,
  which is also stable.
* `concurrent.futures.as_completed` yields results in nondeterministic
  completion order; the code re-sorts before publishing, and no claim
  depends on tie order, so collection is modelled in submission order.
-/

/-- The record returned by `analyze_stock` (both its normal return and the
`except` failsafe return build a dict with exactly these keys). -/
structure AnalysisResult where
  ticker : String
  raw_price : ℚ
  price : String
  legislation_score : ℤ
  final_score : String
  sentiment : String
  timing_signal : String
  volume_signal : String
  congress_activity : String
  corporate_activity : String
  bill_id : String
  bill_sponsor : String
  market_impact : String
deriving DecidableEq, Repr

/-- One entry of `STATIC_LEGISLATION` / `fetch_real_legislation` output.
Every bill dict the code itself constructs carries all six keys. -/
structure Bill where
  bill_id : String
  bill_name : String
  bill_sponsor : String
  impact_score : ℤ
  market_impact : String
  sector : String
deriving DecidableEq, Repr

/-- One entry of the `STATIC_TRADES` table. -/
structure TradeRec where
  pol : String
  ty : String
  date : String
  desc : String
deriving DecidableEq, Repr

/-- `STATIC_LEGISLATION` (src/main.py lines 22-27). -/
def STATIC_LEGISLATION : List Bill :=
  [⟨"H.R. 5077", "CREATE AI Act", "Rep. Lucas", 90, "Bullish: AI R&D Funding", "AI"⟩,
   ⟨"S. 2714", "AI Safety Act", "Sen. Schumer", 85, "Bullish: Tech Standards", "AI"⟩,
   ⟨"H.R. 8070", "Defense Auth Act", "Rep. Rogers", 95, "Direct Beneficiary: Military", "DEFENSE"⟩,
   ⟨"H.R. 4763", "Crypto Clarity Act", "Rep. McHenry", 88, "Bullish: Digital Assets", "CRYPTO"⟩]

/-- `STATIC_TRADES` (src/main.py lines 29-36), as an association list. -/
def STATIC_TRADES : List (String × TradeRec) :=
  [("NVDA", ⟨"Rep. Pelosi", "Purchase", "Jan 14, 2025", "Bought Call Options"⟩),
   ("MSFT", ⟨"Rep. Khanna", "Purchase", "Dec 15, 2024", "Bought Stock"⟩),
   ("PLTR", ⟨"Rep. Green", "Purchase", "Jan 05, 2025", "Bought Stock"⟩),
   ("LMT", ⟨"Rep. Rutherford", "Purchase", "Dec 20, 2024", "Bought Stock"⟩),
   ("META", ⟨"Rep. Greene", "Purchase", "Nov 01, 2024", "Bought Stock"⟩),
   ("COIN", ⟨"Rep. Fallon", "Purchase", "Jan 08, 2025", "Bought Stock"⟩)]

/-- `SECTOR_MAP` (src/main.py line 67). -/
def SECTOR_MAP : List (String × List String) :=
  [("AI", ["NVDA", "AMD", "MSFT", "GOOGL", "PLTR", "AI", "SMCI", "AVGO", "QCOM", "INTC"]),
   ("CRYPTO", ["COIN", "HOOD", "SQ", "MARA"]),
   ("DEFENSE", ["LMT", "RTX", "BA", "GD", "GE"]),
   ("ENERGY", ["XOM", "CVX", "KMI", "OXY"]),
   ("HEALTH", ["PFE", "LLY", "MRK", "VERO", "IBRX"]),
   ("EV", ["TSLA", "RIVN", "LCID", "F", "GM"]),
   ("FINANCE", ["JPM", "BAC", "V", "MA", "SOFI"])]

/-- `SECTOR_PEERS` (src/main.py line 66). -/
def SECTOR_PEERS : List (String × List String) :=
  [("NVDA", ["AMD", "INTC", "AVGO", "QCOM"]),
   ("F", ["GM", "TM", "HMC", "TSLA"]),
   ("TSLA", ["RIVN", "LCID", "F", "GM"]),
   ("VERO", ["PODD", "DXCM", "MDT"]),
   ("SOFI", ["LC", "UPST", "COIN", "HOOD"]),
   ("COIN", ["HOOD", "MARA", "RIOT"]),
   ("SQ", ["PYPL", "COIN"]),
   ("BA", ["LMT", "RTX", "GD"]),
   ("PFE", ["MRK", "BMY", "LLY"]),
   ("AAL", ["DAL", "UAL", "LUV"]),
   ("AAPL", ["MSFT", "GOOGL", "AMZN"]),
   ("XOM", ["CVX", "SHEL", "BP"])]

/-- `MARKET_UNIVERSE` (src/main.py line 68): 38 tickers. -/
def MARKET_UNIVERSE : List String :=
  ["NVDA", "AMD", "MSFT", "GOOGL", "AAPL", "META", "TSLA", "PLTR", "AI", "SOFI",
   "COIN", "HOOD", "PYPL", "SQ", "JPM", "BAC", "LMT", "RTX", "BA", "GE",
   "XOM", "CVX", "AA", "KMI", "AMZN", "WMT", "COST", "F", "GM", "RIVN",
   "LCID", "PFE", "LLY", "MRK", "IBRX", "MRNA", "VERO", "DXCM"]

/-- `SECTOR_MAP.get(sector, [])`. -/
def sectorTickers (s : String) : List String :=
  ((SECTOR_MAP.find? (fun p => p.1 = s)).map Prod.snd).getD []

/-- `STATIC_TRADES.get(ticker)` as `ticker in STATIC_TRADES` lookup. -/
def staticTrade (ticker : String) : Option TradeRec :=
  (STATIC_TRADES.find? (fun p => p.1 = ticker)).map Prod.snd

/-- The projection of a legislative-intel dict that `analyze_stock` reads
(`bill_id`, `impact_score`, `market_impact`, `bill_sponsor`). -/
structure LegIntel where
  bill_id : String
  impact_score : ℤ
  market_impact : String
  bill_sponsor : String
deriving DecidableEq, Repr

/-- `get_legislative_intel` (src/main.py lines 97-101): return the first
cached bill whose sector's ticker list contains `ticker`, else the
"no active legislation" default with neutral score 50. -/
def get_legislative_intel (bills : List Bill) (ticker : String) : LegIntel :=
  match bills.find? (fun b => ticker ∈ sectorTickers b.sector) with
  | some b => ⟨b.bill_id, b.impact_score, b.market_impact, b.bill_sponsor⟩
  | none => ⟨"N/A", 50, "No active legislation found.", "N/A"⟩

/-- Outcomes of the external calls made during one `analyze_stock` run.
`fast = none` means the `yf.Ticker`/`fast_info` access raised (the inner
`except` at line 111); `some (p, v)` is a successful return where either
field may still be Python `None` (mapped to `0` by `or`). `insider` is the
outcome of the `stock.insider_transactions` block: `.error` = it raised,
`.ok none` = no qualifying trade found (text stays "No Recent Trades"),
`.ok (some s)` = it computed the text `s`. `outerFault = true` models an
unexpected exception elsewhere in the body, caught by the outer
catch-all at line 165. -/
structure AnalyzeEnv where
  fast : Option (Option ℚ × Option ℤ)
  insider : Except Unit (Option String)
  outerFault : Bool

/-- Python `f"${price:.2f}"`: dollars-and-cents rendering of a price.
(Python rounds half-to-even; this rounds half-up. No claim depends on the
digits, only on `"N/A"` versus a formatted price.) -/
def moneyFmt (p : ℚ) : String :=
  let cents : ℤ := round (p * 100)
  let sign := if cents < 0 then "-" else ""
  let n := cents.natAbs
  let frac := n % 100
  let fracStr := (if frac < 10 then "0" else "") ++ toString frac
  "$" ++ sign ++ toString (n / 100) ++ "." ++ fracStr

/-- The static insider-text fallback in the `except` branch of the
insider-trades block (src/main.py lines 143-146). -/
def insiderFallback (ticker : String) : String :=
  if ticker = "NVDA" then "Huang (Sold) Jan 15"
  else if ticker = "META" then "Zuckerberg (Sold) Jan 15"
  else "No Recent Trades"

/-- The literal returned by the outer `except` of `analyze_stock`
("ULTIMATE FAILSAFE", src/main.py lines 167-173). -/
def failsafeResult (ticker : String) : AnalysisResult :=
  ⟨ticker, 0, "N/A", 50, "HOLD", "Neutral", "Wait", "N/A",
   "Data Unavailable", "Data Unavailable", "N/A", "N/A", "N/A"⟩

/-- `analyze_stock` (src/main.py lines 103-173). The normal path: price
and volume from the fetch (defaulting to `0` on failure or `None`), the
legislative score, a +5 high-volume bonus, a ±25 congressional
purchase/sale adjustment, a clamp at 99, and the threshold rating bands.
When `fast = none` the Python local `stock` is unbound, so the
insider-trades block always raises (NameError) and takes its `except`
fallback — the model reflects that. `outerFault` routes to the failsafe
record. -/
def analyze_stock (ticker : String) (bills : List Bill) (env : AnalyzeEnv) :
    AnalysisResult :=
  if env.outerFault then failsafeResult ticker
  else
    let pv : ℚ × ℤ := match env.fast with
      | some (p, v) => (p.getD 0, v.getD 0)
      | none => (0, 0)
    let price := pv.1
    let vol := pv.2
    let price_str := if price > 0 then moneyFmt price else "N/A"
    let vol_str := if vol > 1000000 then "High (Buying)" else "Neutral"
    let leg := get_legislative_intel bills ticker
    let score0 := leg.impact_score
    let score1 := if vol_str = "High (Buying)" then score0 + 5 else score0
    let scn : ℤ × String := match staticTrade ticker with
      | some td =>
          if td.ty = "Purchase" then
            (score1 + 25, td.pol ++ " (Bought " ++ td.date ++ ") +25%")
          else if td.ty = "Sale" then
            (score1 - 25, td.pol ++ " (Sold " ++ td.date ++ ") -25%")
          else (score1, "No Recent Activity")
      | none => (score1, "No Recent Activity")
    let score2 := scn.1
    let congress_note := scn.2
    let action_text := match env.fast with
      | none => insiderFallback ticker
      | some _ => match env.insider with
        | .ok none => "No Recent Trades"
        | .ok (some s) => s
        | .error _ => insiderFallback ticker
    let score := if score2 > 99 then 99 else score2
    let rst : String × String × String :=
      if score ≥ 75 then ("STRONG BUY", "Bullish", "Accumulate")
      else if score ≥ 60 then ("BUY", "Bullish", "Add Dip")
      else if score ≤ 45 then ("SELL", "Bearish", "Exit")
      else ("HOLD", "Neutral", "Wait")
    ⟨ticker, price, price_str, score, rst.1, rst.2.1, rst.2.2, vol_str,
     congress_note, action_text, leg.bill_id, leg.bill_sponsor, leg.market_impact⟩

/-- Descending-score comparison: `a` comes no later than `b` when
`a.legislation_score ≥ b.legislation_score` (the `reverse=True` sort key
of src/main.py line 191). -/
def scoreGe (a b : AnalysisResult) : Bool :=
  decide (b.legislation_score ≤ a.legislation_score)

/-- Ascending-score comparison (the `reverse=False` sort key of
src/main.py line 198). -/
def scoreLe (a b : AnalysisResult) : Bool :=
  decide (a.legislation_score ≤ b.legislation_score)

/-- Stable descending sort by `legislation_score`
(`results.sort(key=..., reverse=True)`). -/
def sortDesc (l : List AnalysisResult) : List AnalysisResult :=
  l.mergeSort scoreGe

/-- Stable ascending sort by `legislation_score`
(`results.sort(key=..., reverse=False)`). -/
def sortAsc (l : List AnalysisResult) : List AnalysisResult :=
  l.mergeSort scoreLe

/-- The "cheap" filter `0 < x.get('raw_price', 0) < 50`
(src/main.py line 194). -/
def cheapPred (x : AnalysisResult) : Bool :=
  decide (0 < x.raw_price) && decide (x.raw_price < 50)

/-- The three views computed by one refresh cycle's publishing block
(src/main.py lines 190-199), in the code's own order: sort `results`
descending in place and take 5 for "buys"; filter the (now sorted) list
by the cheap predicate, sort that descending, take 5 for "cheap"; re-sort
the list ascending in place and take 5 for "sells". -/
def refreshViews (results : List AnalysisResult) :
    List AnalysisResult × List AnalysisResult × List AnalysisResult :=
  let r1 := sortDesc results
  let buys := r1.take 5
  let cheap := (sortDesc (r1.filter cheapPred)).take 5
  let sells := (sortAsc r1).take 5
  (buys, cheap, sells)

/-- `SERVER_CACHE` (src/main.py line 40): the shared dict with keys
`buys`, `cheap`, `sells`, `last_updated`. -/
structure ServerCache where
  buys : List AnalysisResult
  cheap : List AnalysisResult
  sells : List AnalysisResult
  last_updated : Option String
deriving DecidableEq, Repr

/-- The initial value `{"buys": [], "cheap": [], "sells": [], "last_updated": None}`. -/
def initCache : ServerCache := ⟨[], [], [], none⟩

/-- The cache after the whole publishing block of one refresh cycle has
run (all four key assignments of src/main.py lines 192-200 done). -/
def applyPublish (old : ServerCache) (results : List AnalysisResult)
    (t : String) : ServerCache :=
  let v := refreshViews results
  { old with buys := v.1, cheap := v.2.1, sells := v.2.2, last_updated := some t }

/-- The sequence of cache states a concurrent reader can observe while the
publishing block runs: the code assigns `SERVER_CACHE["buys"]`,
`SERVER_CACHE["cheap"]`, `SERVER_CACHE["sells"]` and
`SERVER_CACHE["last_updated"]` one key at a time (src/main.py lines
192-200), with list sorting in between, and the read endpoint runs on a
separate thread, so every prefix of the assignment sequence is an
observable state. -/
def publishStates (old : ServerCache) (results : List AnalysisResult)
    (t : String) : List ServerCache :=
  let v := refreshViews results
  let c1 := { old with buys := v.1 }
  let c2 := { c1 with cheap := v.2.1 }
  let c3 := { c2 with sells := v.2.2 }
  let c4 := { c3 with last_updated := some t }
  [old, c1, c2, c3, c4]

/-- The per-symbol external-call outcome in a cycle where every
market-data fetch raises and so does every insider-transactions access. -/
def allFailEnv : AnalyzeEnv := ⟨none, Except.error (), false⟩

/-- One iteration of `update_market_scanner`'s scan-and-publish body
(src/main.py lines 183-200): analyze every symbol of `MARKET_UNIVERSE`
(each worker's external-call outcomes given by `envs`), then run the
publishing block. `analyze_stock` is total, so `future.result()` never
raises and every symbol contributes a record; the `try` block at lines
190-201 only runs total list operations, so it always completes and
publishes. -/
def runCycle (old : ServerCache) (bills : List Bill)
    (envs : String → AnalyzeEnv) (t : String) : ServerCache :=
  applyPublish old (MARKET_UNIVERSE.map (fun s => analyze_stock s bills (envs s))) t

/-- The value `SERVER_CACHE.get(mode, [])` can take: one of the three list
views, the `last_updated` entry, or the default empty list. -/
inductive ScannerResponse where
  | views : List AnalysisResult → ScannerResponse
  | tstamp : Option String → ScannerResponse
deriving DecidableEq, Repr

/-- `get_scanner_data` (src/main.py lines 253-254):
`SERVER_CACHE.get(mode, [])` — a pure dict lookup over the four keys of
`SERVER_CACHE`, defaulting to `[]`; no fetch is performed. -/
def get_scanner_data (cache : ServerCache) (mode : String) : ScannerResponse :=
  if mode = "buys" then .views cache.buys
  else if mode = "cheap" then .views cache.cheap
  else if mode = "sells" then .views cache.sells
  else if mode = "last_updated" then .tstamp cache.last_updated
  else .views []

/-- An HTTP-level response of the `/api/signals` endpoint: a 200 with a
result list, or a 4xx client error (which FastAPI produces from a raised
`HTTPException`). -/
inductive SignalsResponse where
  | ok : List AnalysisResult → SignalsResponse
  | clientError : ℕ → String → SignalsResponse
deriving DecidableEq, Repr

/-- Python `str.upper()` (tickers are ASCII), modelled over the
underlying character list so that it is kernel-computable. -/
def upperStr (s : String) : String := ⟨s.data.map Char.toUpper⟩

/-- `SECTOR_PEERS.get(ticker.upper(), ["AAPL", "MSFT"])`. -/
def sectorPeersLookup (t : String) : List String :=
  ((SECTOR_PEERS.find? (fun p => p.1 = t)).map Prod.snd).getD ["AAPL", "MSFT"]

/-- `get_signals` (src/main.py lines 256-269). `single=True` analyzes just
the uppercased ticker; otherwise the ticker plus up to 5 sector peers are
analyzed and the primary ticker is sorted to the front (stable sort on
the Boolean key `x['ticker'] == ticker.upper()`, `reverse=True`). The
function body never raises `HTTPException`; its own `except` falls back
to a single-ticker analysis, so every path returns a 200 with a list. -/
def get_signals (ticker : String) (single : Bool) (bills : List Bill)
    (envs : String → AnalyzeEnv) : SignalsResponse :=
  let t := upperStr ticker
  if single then .ok [analyze_stock t bills (envs t)]
  else
    let competitors := sectorPeersLookup t
    let all_tickers := t :: competitors.take 5
    let results := all_tickers.map (fun s => analyze_stock s bills (envs s))
    .ok (results.mergeSort (fun a b => if b.ticker = t then decide (a.ticker = t) else true))

/-- The rating bands at src/main.py lines 150-153, as a function of the
clamped score: ≥75 STRONG BUY, ≥60 BUY, ≤45 SELL, otherwise HOLD. -/
def ratingOf (s : ℤ) : String :=
  if s ≥ 75 then "STRONG BUY"
  else if s ≥ 60 then "BUY"
  else if s ≤ 45 then "SELL"
  else "HOLD"

/-- A concrete analysis record produced by a cycle whose market-data fetch
raised: NVDA against the static legislation table. -/
def rFail : AnalysisResult := analyze_stock "NVDA" STATIC_LEGISLATION allFailEnv

/-- A concrete analysis record with a successfully fetched price of 10
(inside the under-50 "cheap" band). -/
def rCheap : AnalysisResult :=
  analyze_stock "NVDA" STATIC_LEGISLATION ⟨some (some 10, some 0), Except.ok none, false⟩

/-- Whether a `/api/signals` response is a 4xx client error. -/
def isClientError : SignalsResponse → Bool
  | .clientError _ _ => true
  | .ok _ => false

/-- The result list carried by a `/api/signals` response (empty for a
client error). -/
def responseBody : SignalsResponse → List AnalysisResult
  | .ok l => l
  | .clientError _ _ => []

/-! ## Helper lemmas -/

theorem ratingOf_proj (s : ℤ) :
    (if s ≥ 75 then ("STRONG BUY", "Bullish", "Accumulate")
     else if s ≥ 60 then ("BUY", "Bullish", "Add Dip")
     else if s ≤ 45 then ("SELL", "Bearish", "Exit")
     else ("HOLD", "Neutral", "Wait")).1 = ratingOf s := by
  unfold ratingOf
  split_ifs <;> rfl

theorem final_eq_ratingOf (ticker : String) (bills : List Bill) (env : AnalyzeEnv) :
    (analyze_stock ticker bills env).final_score =
      ratingOf (analyze_stock ticker bills env).legislation_score := by
  obtain ⟨fast, insider, outer⟩ := env
  cases outer with
  | true => simp [analyze_stock, failsafeResult, ratingOf]
  | false =>
    simp only [analyze_stock, Bool.false_eq_true, if_false]
    dsimp only
    exact ratingOf_proj _

theorem scoreGe_trans (a b c : AnalysisResult) :
    scoreGe a b → scoreGe b c → scoreGe a c := by
  simp [scoreGe]
  omega

theorem scoreGe_total (a b : AnalysisResult) : scoreGe a b || scoreGe b a := by
  simp [scoreGe]
  omega

theorem scoreLe_trans (a b c : AnalysisResult) :
    scoreLe a b → scoreLe b c → scoreLe a c := by
  simp [scoreLe]
  omega

theorem scoreLe_total (a b : AnalysisResult) : scoreLe a b || scoreLe b a := by
  simp [scoreLe]
  omega

theorem sortDesc_sorted (l : List AnalysisResult) :
    List.Sorted (fun a b : AnalysisResult => b.legislation_score ≤ a.legislation_score)
      (sortDesc l) := by
  have h := @List.sorted_mergeSort _ scoreGe scoreGe_trans scoreGe_total l
  exact h.imp (by simp [scoreGe])

theorem sortAsc_sorted (l : List AnalysisResult) :
    List.Sorted (fun a b : AnalysisResult => a.legislation_score ≤ b.legislation_score)
      (sortAsc l) := by
  have h := @List.sorted_mergeSort _ scoreLe scoreLe_trans scoreLe_total l
  exact h.imp (by simp [scoreLe])

theorem analyze_allFail_price (ticker : String) (bills : List Bill) :
    (analyze_stock ticker bills allFailEnv).price = "N/A" := by
  simp [analyze_stock, allFailEnv]

theorem analyze_allFail_raw (ticker : String) (bills : List Bill) :
    (analyze_stock ticker bills allFailEnv).raw_price = 0 := by
  simp [analyze_stock, allFailEnv]

theorem runCycle_allFail_buys_len (old : ServerCache) (bills : List Bill) (t : String) :
    (runCycle old bills (fun _ => allFailEnv) t).buys.length = 5 := by
  simp [runCycle, applyPublish, refreshViews, sortDesc, MARKET_UNIVERSE]

theorem runCycle_allFail_buys_na (old : ServerCache) (bills : List Bill) (t : String) :
    ∀ x ∈ (runCycle old bills (fun _ => allFailEnv) t).buys, x.price = "N/A" := by
  intro x hx
  have hx2 : x ∈ sortDesc (MARKET_UNIVERSE.map fun s => analyze_stock s bills allFailEnv) :=
    List.mem_of_mem_take hx
  rw [sortDesc, List.mem_mergeSort, List.mem_map] at hx2
  obtain ⟨s, _, rfl⟩ := hx2
  exact analyze_allFail_price s bills

theorem runCycle_allFail_sells_na (old : ServerCache) (bills : List Bill) (t : String) :
    ∀ x ∈ (runCycle old bills (fun _ => allFailEnv) t).sells, x.price = "N/A" := by
  intro x hx
  have hx2 : x ∈
      sortAsc (sortDesc (MARKET_UNIVERSE.map fun s => analyze_stock s bills allFailEnv)) :=
    List.mem_of_mem_take hx
  rw [sortAsc, List.mem_mergeSort] at hx2
  rw [sortDesc, List.mem_mergeSort, List.mem_map] at hx2
  obtain ⟨s, _, rfl⟩ := hx2
  exact analyze_allFail_price s bills

theorem runCycle_allFail_cheap (old : ServerCache) (bills : List Bill) (t : String) :
    (runCycle old bills (fun _ => allFailEnv) t).cheap = [] := by
  have hf : (sortDesc (MARKET_UNIVERSE.map fun s => analyze_stock s bills allFailEnv)).filter
      cheapPred = [] := by
    rw [List.filter_eq_nil_iff]
    intro a ha
    rw [sortDesc, List.mem_mergeSort, List.mem_map] at ha
    obtain ⟨s, _, rfl⟩ := ha
    simp [cheapPred, analyze_allFail_raw]
  show ((sortDesc ((sortDesc _).filter cheapPred)).take 5) = []
  rw [hf]
  simp [sortDesc]

theorem runCycle_allFail_tstamp (old : ServerCache) (bills : List Bill) (t : String) :
    (runCycle old bills (fun _ => allFailEnv) t).last_updated = some t := rfl

theorem signals_allFail_na (ticker : String) (single : Bool) (bills : List Bill) :
    ((responseBody (get_signals ticker single bills (fun _ => allFailEnv))).all
        (fun r => decide (r.price = "N/A"))) = true := by
  unfold get_signals
  split
  · simp [responseBody, analyze_allFail_price]
  · rw [responseBody, List.all_eq_true]
    intro x hx
    rw [List.mem_mergeSort, List.mem_map] at hx
    obtain ⟨s, _, rfl⟩ := hx
    simp [analyze_allFail_price]

/-! ## Claim theorems -/

/-- Claim C1, counterexample. The claim says any internal failure is
downgraded to a placeholder result with rating HOLD. On a market-data
fetch failure for NVDA (inner `except` at src/main.py line 111) the
price is indeed "N/A", but the score is still computed from the static
legislative and congressional tables (90 + 25, clamped to 99), so the
rating is STRONG BUY, not HOLD. -/
theorem analyze_fetchfail_not_hold :
    (analyze_stock "NVDA" STATIC_LEGISLATION allFailEnv).price = "N/A" ∧
    (analyze_stock "NVDA" STATIC_LEGISLATION allFailEnv).final_score = "STRONG BUY" ∧
    ("STRONG BUY" : String) ≠ "HOLD" := by decide

/-- Claim C1, amended. `analyze_stock` is total (never raises) and always
returns a record carrying every field, with the input symbol as its
ticker; a failed market-data fetch yields raw price 0 and price "N/A"
while the rating is still computed from the score; only the outer
catch-all failsafe returns the fixed placeholder, whose rating is HOLD
and whose price is "N/A". -/
theorem analyze_total_wellformed (ticker : String) (bills : List Bill) (env : AnalyzeEnv) :
    (analyze_stock ticker bills env).ticker = ticker ∧
    (env.outerFault = true → analyze_stock ticker bills env = failsafeResult ticker) ∧
    (env.outerFault = false → env.fast = none →
        (analyze_stock ticker bills env).raw_price = 0 ∧
        (analyze_stock ticker bills env).price = "N/A") ∧
    (failsafeResult ticker).final_score = "HOLD" ∧
    (failsafeResult ticker).price = "N/A" := by
  obtain ⟨fast, insider, outer⟩ := env
  cases outer with
  | true =>
    refine ⟨?_, fun _ => rfl, fun h => by simp at h, rfl, rfl⟩
    simp [analyze_stock, failsafeResult]
  | false =>
    refine ⟨rfl, fun h => by simp at h, fun _ hf => ?_, rfl, rfl⟩
    subst hf
    simp [analyze_stock]

/-- Claim C1, witness: the amended theorem applied to NVDA with a failing
fetch. -/
theorem analyze_total_wellformed_witness :
    (analyze_stock "NVDA" STATIC_LEGISLATION allFailEnv).raw_price = 0 ∧
    (analyze_stock "NVDA" STATIC_LEGISLATION allFailEnv).price = "N/A" :=
  (analyze_total_wellformed "NVDA" STATIC_LEGISLATION allFailEnv).2.2.1 rfl rfl

/-- Claim C2, counterexample. The publishing block is not an atomic swap:
after the `SERVER_CACHE["buys"]` assignment but before the
`SERVER_CACHE["sells"]` assignment (src/main.py lines 192-199), a
concurrent reader observes a state that is neither the old cache nor the
fully-updated cache — new buys mixed with the previous cycle's sells and
timestamp. -/
theorem publish_midstate_torn :
    (publishStates initCache [rFail] "12:00:00").get? 1 ≠ some initCache ∧
    (publishStates initCache [rFail] "12:00:00").get? 1 ≠
      some (applyPublish initCache [rFail] "12:00:00") ∧
    (publishStates initCache [rFail] "12:00:00").get? 1 ≠ none := by
  have hc : cheapPred rFail = false := by decide
  have h : publishStates initCache [rFail] "12:00:00" =
      [⟨[], [], [], none⟩, ⟨[rFail], [], [], none⟩, ⟨[rFail], [], [], none⟩,
       ⟨[rFail], [], [rFail], none⟩, ⟨[rFail], [], [rFail], some "12:00:00"⟩] := by
    simp [publishStates, refreshViews, sortDesc, sortAsc, initCache, hc]
  have h2 : applyPublish initCache [rFail] "12:00:00" =
      ⟨[rFail], [], [rFail], some "12:00:00"⟩ := by
    simp [applyPublish, refreshViews, sortDesc, sortAsc, initCache, hc]
  refine ⟨?_, ?_, ?_⟩
  · rw [h]
    simp [initCache]
  · rw [h, h2]
    simp
  · rw [h]
    simp

/-- Claim C2, amended. The refresh loop replaces the cache's views in four
separate successive per-key assignments (buys, then cheap, then sells,
then the timestamp), each individually atomic; a concurrent reader can
observe any prefix of the sequence, so intermediate states mix new views
with the previous cycle's, and only after the final assignment does the
cache hold exactly the new views and timestamp. -/
theorem publish_not_atomic (old : ServerCache) (results : List AnalysisResult) (t : String) :
    publishStates old results t =
      [old,
       { old with buys := (refreshViews results).1 },
       { old with buys := (refreshViews results).1, cheap := (refreshViews results).2.1 },
       { old with buys := (refreshViews results).1, cheap := (refreshViews results).2.1,
                  sells := (refreshViews results).2.2 },
       applyPublish old results t] := rfl

/-- Claim C3, counterexample. A refresh cycle in which every per-symbol
fetch fails does not leave the prior cache contents intact: starting
from the initial empty cache, it publishes a non-empty "buys" view all
of whose entries are fetch-failure placeholders (price "N/A"),
replacing the previous snapshot. -/
theorem allfail_cycle_overwrites :
    (runCycle initCache STATIC_LEGISLATION (fun _ => allFailEnv) "12:00:00").buys ≠
      initCache.buys ∧
    ((runCycle initCache STATIC_LEGISLATION (fun _ => allFailEnv) "12:00:00").buys.all
        (fun r => decide (r.price = "N/A"))) = true ∧
    runCycle initCache STATIC_LEGISLATION (fun _ => allFailEnv) "12:00:00" ≠ initCache := by
  have hlen := runCycle_allFail_buys_len initCache STATIC_LEGISLATION "12:00:00"
  refine ⟨?_, ?_, ?_⟩
  · intro h
    rw [h] at hlen
    simp [initCache] at hlen
  · rw [List.all_eq_true]
    intro x hx
    simpa using runCycle_allFail_buys_na initCache STATIC_LEGISLATION "12:00:00" x hx
  · intro h
    rw [h] at hlen
    simp [initCache] at hlen

/-- Claim C3, amended. A refresh cycle in which every per-symbol fetch
fails still completes (every operation in the cycle is total): it
publishes a full five-entry "buys" view and a "sells" view whose entries
are all fetch-failure placeholders (price "N/A"), an empty "cheap" view
(all raw prices are 0), and the new timestamp — replacing, not
preserving, the prior cache contents. -/
theorem allfail_cycle_publishes (old : ServerCache) (bills : List Bill) (t : String) :
    (runCycle old bills (fun _ => allFailEnv) t).buys.length = 5 ∧
    ((runCycle old bills (fun _ => allFailEnv) t).buys.all
        (fun r => decide (r.price = "N/A"))) = true ∧
    ((runCycle old bills (fun _ => allFailEnv) t).sells.all
        (fun r => decide (r.price = "N/A"))) = true ∧
    (runCycle old bills (fun _ => allFailEnv) t).cheap = [] ∧
    (runCycle old bills (fun _ => allFailEnv) t).last_updated = some t := by
  refine ⟨runCycle_allFail_buys_len old bills t, ?_, ?_,
    runCycle_allFail_cheap old bills t, runCycle_allFail_tstamp old bills t⟩
  · rw [List.all_eq_true]
    intro x hx
    simpa using runCycle_allFail_buys_na old bills t x hx
  · rw [List.all_eq_true]
    intro x hx
    simpa using runCycle_allFail_sells_na old bills t x hx

/-- Claim C4. After a refresh cycle, every entry of the published "cheap"
view has raw price strictly between 0 and 50, and the view is the top-5
of the cheap-filtered result set by score descending: it is sorted by
score descending, its length is `min 5` the number of cheap entries, and
the cheap entries split (up to permutation) into the view plus a
remainder whose scores do not exceed any score in the view. -/
theorem cheap_view_spec (results : List AnalysisResult) :
    (∀ x ∈ (refreshViews results).2.1, 0 < x.raw_price ∧ x.raw_price < 50) ∧
    List.Sorted (fun a b : AnalysisResult => b.legislation_score ≤ a.legislation_score)
      (refreshViews results).2.1 ∧
    (refreshViews results).2.1.length = min 5 (results.filter cheapPred).length ∧
    ∃ rest : List AnalysisResult,
      (results.filter cheapPred).Perm ((refreshViews results).2.1 ++ rest) ∧
      ∀ x ∈ (refreshViews results).2.1, ∀ y ∈ rest,
        y.legislation_score ≤ x.legislation_score := by
  have hview : (refreshViews results).2.1 =
      (sortDesc ((sortDesc results).filter cheapPred)).take 5 := rfl
  have hs_perm : (sortDesc ((sortDesc results).filter cheapPred)).Perm
      ((sortDesc results).filter cheapPred) := List.mergeSort_perm _ scoreGe
  have hfil : ((sortDesc results).filter cheapPred).Perm (results.filter cheapPred) :=
    (List.mergeSort_perm results scoreGe).filter cheapPred
  have hsorted := sortDesc_sorted ((sortDesc results).filter cheapPred)
  refine ⟨?_, ?_, ?_, ?_⟩
  · intro x hx
    rw [hview] at hx
    have hx2 := List.mem_of_mem_take hx
    have hx3 : x ∈ (sortDesc results).filter cheapPred := hs_perm.mem_iff.mp hx2
    have hx4 := List.of_mem_filter hx3
    simpa [cheapPred] using hx4
  · rw [hview]
    exact hsorted.sublist (List.take_sublist 5 _)
  · rw [hview, List.length_take, sortDesc, List.length_mergeSort]
    rw [hfil.length_eq]
  · refine ⟨(sortDesc ((sortDesc results).filter cheapPred)).drop 5, ?_, ?_⟩
    · rw [hview]
      rw [List.take_append_drop]
      exact (hs_perm.trans hfil).symm
    · intro x hx y hy
      rw [hview] at hx
      have hp := hsorted
      rw [← List.take_append_drop 5 (sortDesc ((sortDesc results).filter cheapPred))]
        at hp
      exact (List.pairwise_append.mp hp).2.2 x hx y hy

/-- Claim C4, witness: the cheap-view membership bound applied to a
one-element cycle whose entry has fetched price 10. -/
theorem cheap_view_spec_witness :
    0 < rCheap.raw_price ∧ rCheap.raw_price < 50 :=
  (cheap_view_spec [rCheap]).1 rCheap (by
    have hc : cheapPred rCheap = true := by decide
    simp [refreshViews, sortDesc, sortAsc, hc])

/-- Claim C5. Within one refresh cycle, "buys" and "sells" are the first
five entries of two orderings of the same underlying result set: there
are a descending-by-score ordering and an ascending-by-score ordering,
both permutations of the cycle's results, whose 5-prefixes are exactly
the published "buys" and "sells" views. -/
theorem buys_sells_same_dataset (results : List AnalysisResult) :
    ∃ ld la : List AnalysisResult,
      ld.Perm results ∧ la.Perm results ∧
      List.Sorted (fun a b : AnalysisResult => b.legislation_score ≤ a.legislation_score) ld ∧
      List.Sorted (fun a b : AnalysisResult => a.legislation_score ≤ b.legislation_score) la ∧
      (refreshViews results).1 = ld.take 5 ∧
      (refreshViews results).2.2 = la.take 5 :=
  ⟨sortDesc results, sortAsc (sortDesc results),
   List.mergeSort_perm results scoreGe,
   (List.mergeSort_perm _ scoreLe).trans (List.mergeSort_perm results scoreGe),
   sortDesc_sorted results, sortAsc_sorted (sortDesc results), rfl, rfl⟩

/-- Claim C6. For every symbol, bill table and combination of external
outcomes (volume bonus, congressional purchase/sale adjustment), the
numeric score in the record returned by `analyze_stock` never exceeds
the ceiling 99 (the clamp at src/main.py line 149 runs after all
bonuses). -/
theorem score_le_99 (ticker : String) (bills : List Bill) (env : AnalyzeEnv) :
    (analyze_stock ticker bills env).legislation_score ≤ 99 := by
  obtain ⟨fast, insider, outer⟩ := env
  cases outer with
  | true => simp [analyze_stock, failsafeResult]
  | false =>
    simp only [analyze_stock, Bool.false_eq_true, if_false]
    dsimp only
    split <;> omega

/-- Claim C7. `analyze_stock` maps its final clamped score to a rating by
the fixed bands of src/main.py lines 150-153: score ≥ 75 gives
STRONG BUY, 60 ≤ score < 75 gives BUY, score ≤ 45 gives SELL, and any
other score gives HOLD. -/
theorem rating_threshold_bands (ticker : String) (bills : List Bill) (env : AnalyzeEnv) :
    (75 ≤ (analyze_stock ticker bills env).legislation_score →
        (analyze_stock ticker bills env).final_score = "STRONG BUY") ∧
    (60 ≤ (analyze_stock ticker bills env).legislation_score →
        (analyze_stock ticker bills env).legislation_score < 75 →
        (analyze_stock ticker bills env).final_score = "BUY") ∧
    ((analyze_stock ticker bills env).legislation_score ≤ 45 →
        (analyze_stock ticker bills env).final_score = "SELL") ∧
    (45 < (analyze_stock ticker bills env).legislation_score →
        (analyze_stock ticker bills env).legislation_score < 60 →
        (analyze_stock ticker bills env).final_score = "HOLD") := by
  have h := final_eq_ratingOf ticker bills env
  rw [h]
  unfold ratingOf
  refine ⟨?_, ?_, ?_, ?_⟩ <;> intros <;> split_ifs <;> first | rfl | omega

/-- Claim C7, witness: NVDA with a failed fetch scores 99 ≥ 75 and is
rated STRONG BUY. -/
theorem rating_threshold_bands_witness :
    (analyze_stock "NVDA" STATIC_LEGISLATION allFailEnv).final_score = "STRONG BUY" :=
  (rating_threshold_bands "NVDA" STATIC_LEGISLATION allFailEnv).1 (by decide)

/-- Claim C8, counterexample. `mode=last_updated` is a mode name other
than the three named views, yet `GET /api/scanner` returns the cached
timestamp for it (`SERVER_CACHE.get` hits the fourth dict key), not an
empty sequence. -/
theorem scanner_last_updated_leaks :
    get_scanner_data ⟨[], [], [], some "09:30:00"⟩ "last_updated" =
      ScannerResponse.tstamp (some "09:30:00") ∧
    ScannerResponse.tstamp (some "09:30:00") ≠ ScannerResponse.views [] ∧
    ¬("last_updated" = "buys" ∨ "last_updated" = "cheap" ∨ "last_updated" = "sells") := by
  refine ⟨rfl, by simp, by decide⟩

/-- Claim C8, amended. For every mode name other than "buys", "cheap",
"sells" and "last_updated", the scanner endpoint returns an empty
sequence rather than an error, performing no live fetch (the handler is
a pure cache lookup); `mode=last_updated` returns the cached timestamp
instead. -/
theorem scanner_unknown_mode_empty (cache : ServerCache) (mode : String)
    (h1 : mode ≠ "buys") (h2 : mode ≠ "cheap") (h3 : mode ≠ "sells")
    (h4 : mode ≠ "last_updated") :
    get_scanner_data cache mode = .views [] := by
  simp [get_scanner_data, h1, h2, h3, h4]

/-- Claim C8, witness: the unknown mode "momentum" returns the empty
view. -/
theorem scanner_unknown_mode_empty_witness :
    get_scanner_data initCache "momentum" = .views [] :=
  scanner_unknown_mode_empty initCache "momentum"
    (by decide) (by decide) (by decide) (by decide)

/-- Claim C9, counterexample. For an unknown/invalid symbol whose fetches
all fail, `GET /api/signals` does not return a client error: it returns
a 200 with three records (the symbol plus the default peers AAPL and
MSFT), all of them placeholder data with price "N/A". -/
theorem signals_bogus_symbol_ok :
    isClientError (get_signals "QQQQ" false STATIC_LEGISLATION (fun _ => allFailEnv)) = false ∧
    (responseBody (get_signals "QQQQ" false STATIC_LEGISLATION (fun _ => allFailEnv))).length = 3 ∧
    ((responseBody (get_signals "QQQQ" false STATIC_LEGISLATION (fun _ => allFailEnv))).all
        (fun r => decide (r.price = "N/A"))) = true := by
  have ht : upperStr "QQQQ" = "QQQQ" := by decide
  have hp : sectorPeersLookup "QQQQ" = ["AAPL", "MSFT"] := by decide
  refine ⟨?_, ?_, signals_allFail_na "QQQQ" false STATIC_LEGISLATION⟩
  · simp [get_signals, isClientError]
  · simp [get_signals, responseBody, ht, hp]

/-- Claim C9, amended. For every request to the signals endpoint — any
symbol string, valid or malformed, single or peer mode, any external
outcomes — the handler returns a 200 with a list of analysis results
(placeholder data when fetches fail); it never raises `HTTPException`
and never returns a client error. -/
theorem signals_always_ok (ticker : String) (single : Bool) (bills : List Bill)
    (envs : String → AnalyzeEnv) :
    ∃ l : List AnalysisResult, get_signals ticker single bills envs = .ok l := by
  unfold get_signals
  split
  · exact ⟨_, rfl⟩
  · exact ⟨_, rfl⟩

/-- Claim C10. When the market-data fetch inside `analyze_stock` fails
(inner exception path, volume defaults to 0), the returned record has
`volume_signal = "Neutral"` — the same value as a successful fetch with
volume ≤ 1,000,000 — and only the outer catch-all failsafe produces
"N/A" for the volume field. -/
theorem volume_signal_paths (ticker : String) (bills : List Bill) (env : AnalyzeEnv) :
    (env.outerFault = false → env.fast = none →
        (analyze_stock ticker bills env).volume_signal = "Neutral") ∧
    (∀ p v, env.outerFault = false → env.fast = some (p, v) → v.getD 0 ≤ 1000000 →
        (analyze_stock ticker bills env).volume_signal = "Neutral") ∧
    (env.outerFault = true → (analyze_stock ticker bills env).volume_signal = "N/A") := by
  obtain ⟨fast, insider, outer⟩ := env
  cases outer with
  | true =>
    refine ⟨fun h => by simp at h, fun _ _ h => by simp at h, fun _ => rfl⟩
  | false =>
    refine ⟨fun _ hf => ?_, fun p v _ hf hv => ?_, fun h => by simp at h⟩
    · subst hf
      rfl
    · subst hf
      simp only [analyze_stock, Bool.false_eq_true, if_false]
      dsimp only
      rw [if_neg (by omega)]

/-- Claim C10, witness: a failed fetch for AAPL reports the Neutral
volume signal. -/
theorem volume_signal_paths_witness :
    (analyze_stock "AAPL" STATIC_LEGISLATION allFailEnv).volume_signal = "Neutral" :=
  (volume_signal_paths "AAPL" STATIC_LEGISLATION allFailEnv).1 rfl rfl
